import Mathlib

/-!
# gunner: signal-driven process supervisor (`main.go`)

A shallow embedding of the three activities of `main.go` -- `signalHandler`,
`run` and the respawn loop of `main` -- as step functions over an explicit
state, followed by theorems about them.

Conventions of the embedding:

* Go `int` is the 64-bit two's complement integer of the usual targets; the
  interrupt counter wraps (`wrapInt`).
* The three control channels are made by `make(chan struct{}, 1)` and every
  send in the program is a plain (blocking) send.  A channel is the number of
  buffered elements; a send that finds the buffer full leaves the sending
  goroutine parked in the send, to be completed by a later `unblock` event.
* `select` picks any ready branch.  The branch taken is the event given to the
  step function; a step function returns `none` for an event whose branch is
  not ready in the given state.
* `posts` and `sent` are logs kept next to the state: the channel sends a
  goroutine has executed and the signals that reached the child.
-/

namespace Gunner

/-! ## Signals and machine integers -/

/-- The signals the program distinguishes; `other` stands for every further
signal relayed by `signal.Notify(sigs)`. -/
inductive Signal
  | SIGINT
  | SIGKILL
  | SIGTERM
  | SIGTSTP
  | other (n : Nat)
  deriving DecidableEq, Repr

/-- Reduction of an integer to Go's 64-bit `int` (two's complement wrap). -/
def wrapInt (z : Int) : Int := (z + 9223372036854775808) % 18446744073709551616 - 9223372036854775808

/-! ## Package-level variables -/

/-- The three control channels `restart`, `shutdown`, `kill`. -/
inductive Line
  | restart
  | shutdown
  | kill
  deriving DecidableEq, Repr

/-- Capacity given to each control channel by `make(chan struct{}, 1)`. -/
def chanCap : Nat := 1

/-- The state shared by the goroutines: the package-level variable `desire`, the
number of elements buffered in each of the channels `restart`, `shutdown`,
`kill`, the cancellation context and the detached timer goroutines. -/
structure Globals where
  desire : String
  restart : Nat
  shutdown : Nat
  kill : Nat
  /-- the context `ctx` handed to both goroutines has been cancelled -/
  ctxDone : Bool
  /-- goroutines started by the `ctx.Done()` branch of `run` that have not yet
  completed their `kill <- struct{}{}` -/
  timers : Nat
  deriving DecidableEq, Repr

/-- Number of elements buffered in a control channel. -/
def Globals.len (g : Globals) : Line → Nat
  | .restart => g.restart
  | .shutdown => g.shutdown
  | .kill => g.kill

/-- Replace the buffer length of one control channel. -/
def Globals.setLen (g : Globals) (l : Line) (n : Nat) : Globals :=
  match l with
  | .restart => { g with restart := n }
  | .shutdown => { g with shutdown := n }
  | .kill => { g with kill := n }

/-- The send `l <- struct{}{}`: succeeds at once when the buffer has room,
`none` when the buffer is full and the sender has to park. -/
def Globals.trySend (g : Globals) (l : Line) : Option Globals :=
  if g.len l < chanCap then some (g.setLen l (g.len l + 1)) else none

/-- The receive `<-l` of a `select` branch: `none` when nothing is buffered. -/
def Globals.tryRecv (g : Globals) (l : Line) : Option Globals :=
  if 0 < g.len l then some (g.setLen l (g.len l - 1)) else none

/-! ## `signalHandler` -/

/-- Local state of the `signalHandler` goroutine. -/
structure Handler where
  /-- the local `sigInts` -/
  sigInts : Int
  /-- parked in a send on this channel; the flag tells that the send is the one
  of the timeout branch, which is followed by `sigInts = 0` -/
  sending : Option (Line × Bool)
  /-- left through `case <-ctx.Done(): return` -/
  returned : Bool
  /-- log of the channel sends executed so far, oldest first -/
  posts : List Line
  deriving DecidableEq, Repr

/-- What one iteration of the `select` of `signalHandler` can react to, plus the
completion of a parked send. -/
inductive HandlerEvent
  | ctxDone
  | sig (s : Signal)
  | timeout
  | unblock
  deriving DecidableEq, Repr

/-- A send statement of `signalHandler`: logged, completed when the buffer
has room (then `sigInts = 0` runs if the send is the timeout branch's),
otherwise the goroutine parks in it. -/
def handlerSend (g : Globals) (h : Handler) (l : Line) (reset : Bool) : Globals × Handler :=
  match g.trySend l with
  | some g' => (g', { h with posts := h.posts ++ [l], sigInts := if reset then 0 else h.sigInts })
  | none => (g, { h with posts := h.posts ++ [l], sending := some (l, reset) })

/-- The timeout branch of `signalHandler`: `switch sigInts` followed by
`sigInts = 0`. -/
def handlerTimeout (g : Globals) (h : Handler) : Globals × Handler :=
  if h.sigInts = 0 then (g, { h with sigInts := 0 })
  else if h.sigInts = 1 then handlerSend { g with desire := "restart" } h .restart true
  else if h.sigInts = 2 ∨ h.sigInts = 3 ∨ h.sigInts = 4 then
    handlerSend { g with desire := "shutdown" } h .shutdown true
  else handlerSend { g with desire := "kill" } h .kill true

/-- The signal branch of `signalHandler`: `switch sig`. -/
def handlerSignal (g : Globals) (h : Handler) : Signal → Globals × Handler
  | .SIGTSTP => (g, h)
  | .SIGTERM => handlerSend { g with desire := "shutdown" } h .shutdown false
  | .SIGINT => (g, { h with sigInts := wrapInt (h.sigInts + 1) })
  | _ => (g, h)

/-- One step of `signalHandler`. -/
def signalHandlerStep (g : Globals) (h : Handler) (e : HandlerEvent) : Option (Globals × Handler) :=
  if h.returned then none
  else
    match h.sending, e with
    | some (l, reset), .unblock =>
      match g.trySend l with
      | some g' => some (g', { h with sending := none, sigInts := if reset then 0 else h.sigInts })
      | none => none
    | some _, _ => none
    | none, .unblock => none
    | none, .ctxDone => if g.ctxDone then some (g, { h with returned := true }) else none
    | none, .sig s => some (handlerSignal g h s)
    | none, .timeout => some (handlerTimeout g h)

/-- Run `signalHandler` over a sequence of events. -/
def signalHandler (g : Globals) (h : Handler) : List HandlerEvent → Option (Globals × Handler)
  | [] => some (g, h)
  | e :: es =>
    match signalHandlerStep g h e with
    | some (g', h') => signalHandler g' h' es
    | none => none

/-- The handler as `go signalHandler(ctx)` starts it: `var sigInts int`. -/
def Handler.init : Handler := { sigInts := 0, sending := none, returned := false, posts := [] }

/-- A handler that is in its `select`, neither parked in a send nor returned. -/
def Handler.idle (h : Handler) : Prop := h.sending = none ∧ h.returned = false

/-- Reading of a result `res` of `signalHandler` started from `(g, h)`: the
events were all taken, the intent is `d`, the sends executed on top of those
already logged in `h` are exactly `ps`, a channel outside `ps` is untouched,
and a send of `ps` has either put its element into the buffer or, the buffer
being full, has the handler parked in it. -/
def HandlerOutcome (g : Globals) (h : Handler) (res : Option (Globals × Handler))
    (d : String) (ps : List Line) : Prop :=
  ∃ g' h', res = some (g', h') ∧ g'.desire = d ∧ h'.posts = h.posts ++ ps ∧
    (∀ l, l ∉ ps → g'.len l = g.len l) ∧
    (∀ l, l ∈ ps → (g.len l < chanCap → g'.len l = g.len l + 1 ∧ h'.sending = none) ∧
      (¬ g.len l < chanCap → g'.len l = g.len l ∧ h'.sending.map Prod.fst = some l))

/-- Reading of the timeout step taken by an idle handler from `(g, h)` when the
pending interrupt count is `c`: 0 changes nothing, 1 gives restart and a send
on `restart`, 2 to 4 give shutdown and a send on `shutdown`, every other count
gives kill and a send on `kill`. -/
def TimeoutOutcome (g : Globals) (h : Handler) (c : Int) : Prop :=
  (c = 0 → HandlerOutcome g h (signalHandlerStep g h .timeout) g.desire []) ∧
  (c = 1 → HandlerOutcome g h (signalHandlerStep g h .timeout) "restart" [.restart]) ∧
  (c = 2 ∨ c = 3 ∨ c = 4 →
    HandlerOutcome g h (signalHandlerStep g h .timeout) "shutdown" [.shutdown]) ∧
  (¬ (c = 0 ∨ c = 1 ∨ c = 2 ∨ c = 3 ∨ c = 4) →
    HandlerOutcome g h (signalHandlerStep g h .timeout) "kill" [.kill])

/-! ## `run` -/

/-- The child command of one `run` invocation, as `cmd.Process` shows it. -/
inductive Child
  /-- the goroutine has not yet completed `cmd.Start()`: `cmd.Process` is nil -/
  | unstarted
  /-- started, `cmd.Wait()` has not returned -/
  | running (pid : Nat)
  /-- the process has exited and `cmd.Wait()` has returned -/
  | finished (pid : Nat)
  deriving DecidableEq, Repr

/-- The two ways kill(2) addresses its receivers: one process, or every member
of a process group. -/
inductive Target
  | process (pid : Nat)
  | group (pgid : Nat)
  deriving DecidableEq, Repr

/-- A signal sent by the supervisor. -/
structure Kill where
  target : Target
  sig : Signal
  deriving DecidableEq, Repr

/-- An entry of the process table. -/
structure Proc where
  pid : Nat
  pgid : Nat
  deriving DecidableEq, Repr

/-- Whether a process is among the receivers of a kill(2) target. -/
def Target.reaches : Target → Proc → Bool
  | .process pid, p => p.pid == pid
  | .group pgid, p => p.pgid == pgid

/-- How an invocation of `run` ended. -/
inductive RunResult
  /-- the loop ended and `return cmd` ran -/
  | cmd
  /-- a panic raised while `recoverable` was true was absorbed by the deferred
  function: `run` returns its zero result -/
  | recovered
  deriving DecidableEq, Repr

/-- Local state of one invocation of `run`. -/
structure Run where
  child : Child
  /-- elements buffered in `done` (capacity 1) -/
  done : Nat
  /-- the loop variable `running` -/
  running : Bool
  /-- parked in `shutdown <- struct{}{}` -/
  sendingShutdown : Bool
  /-- set once the invocation has returned -/
  result : Option RunResult
  /-- log of the signals sent to a live process, oldest first -/
  sent : List Kill
  deriving DecidableEq, Repr

/-- The events of one `run` invocation: the two steps of its goroutine and the
branches of its `select`, plus the completion of a parked send. -/
inductive RunEvent
  /-- goroutine: `cmd.Start()` succeeded -/
  | started (pid : Nat)
  /-- goroutine: `cmd.Wait()` returned, then `done <- true` -/
  | childExit
  | ctxDone
  | done
  | restart
  | shutdown
  | kill
  | unblock
  deriving DecidableEq, Repr

/-- Entry of `run` up to the loop: `args[0]` panics on an empty argument list
while `recoverable` is false, so the panic is raised again (`none`). -/
def runStart (args : List String) : Option Run :=
  match args with
  | [] => none
  | _ :: _ => some { child := .unstarted, done := 0, running := true, sendingShutdown := false,
                     result := none, sent := [] }

/-- The statement `shutdown <- struct{}{}` inside the loop of `run`. -/
def runSendShutdown (g : Globals) (r : Run) : Globals × Run :=
  match g.trySend .shutdown with
  | some g' => (g', r)
  | none => (g, { r with sendingShutdown := true })

/-- The call `cmd.Process.Signal(sig)` between `recoverable = true` and
`recoverable = false`.  `os.Process.Signal` addresses the single process
`cmd.Process.Pid`.  With `cmd.Process` still nil the call dereferences nil; the
deferred function absorbs the panic and `run` returns.  After `Wait` the call
returns an error, which is dropped. -/
def runSignal (r : Run) (sig : Signal) : Run :=
  match r.child with
  | .unstarted => { r with result := some .recovered }
  | .running pid => { r with sent := r.sent ++ [{ target := .process pid, sig := sig }] }
  | .finished _ => r

/-- One step of a `run` invocation. -/
def runStep (g : Globals) (r : Run) (e : RunEvent) : Option (Globals × Run) :=
  match e with
  | .started pid =>
    match r.child with
    | .unstarted => some (g, { r with child := .running pid })
    | _ => none
  | .childExit =>
    match r.child with
    | .running pid => some (g, { r with child := .finished pid, done := r.done + 1 })
    | _ => none
  | .unblock =>
    if r.result.isNone ∧ r.sendingShutdown then
      match g.trySend .shutdown with
      | some g' => some (g', { r with sendingShutdown := false })
      | none => none
    else none
  | .ctxDone =>
    if r.result.isNone ∧ ¬ r.sendingShutdown ∧ g.ctxDone then
      some (runSendShutdown { g with timers := g.timers + 1 } r)
    else none
  | .done =>
    if r.result.isNone ∧ ¬ r.sendingShutdown ∧ 0 < r.done then
      some (g, { r with done := r.done - 1, running := false, result := some .cmd })
    else none
  | .restart =>
    if r.result.isNone ∧ ¬ r.sendingShutdown then
      match g.tryRecv .restart with
      | some g' => some (runSendShutdown g' r)
      | none => none
    else none
  | .shutdown =>
    if r.result.isNone ∧ ¬ r.sendingShutdown then
      match g.tryRecv .shutdown with
      | some g' => some (g', runSignal r .SIGTERM)
      | none => none
    else none
  | .kill =>
    if r.result.isNone ∧ ¬ r.sendingShutdown then
      match g.tryRecv .kill with
      | some g' => some (g', runSignal r .SIGKILL)
      | none => none
    else none

/-- A timer goroutine of `run` completes `kill <- struct{}{}` after its sleep. -/
def timerFire (g : Globals) : Option Globals :=
  if 0 < g.timers then
    match g.trySend .kill with
    | some g' => some { g' with timers := g'.timers - 1 }
    | none => none
  else none

/-! ## `main` -/

/-- The constant `time.Second`, in nanoseconds. -/
def second : Int := 1000000000

/-- Outcome of `switch desire` in `main`. -/
inductive Decision
  /-- `case "restart":` falls out of the switch into the rest of the loop body -/
  | loop
  /-- `case "shutdown", "kill": return` -/
  | ret
  /-- `default: log.Fatalln(...)` -/
  | fatal
  deriving DecidableEq, Repr

/-- The statement `switch desire` of `main`. -/
def mainSwitch (desire : String) : Decision :=
  if desire = "restart" then .loop
  else if desire = "shutdown" ∨ desire = "kill" then .ret
  else .fatal

/-- The rest of the loop body of `main` after the switch: whether
`time.Sleep(time.Second)` runs, and the value of `lastRunTook` afterwards. -/
def mainTail (lastRunTook took : Int) : Bool × Int :=
  (decide (lastRunTook < second), took)

/-- State of the whole program. -/
structure Sys where
  /-- `os.Args[1:]` -/
  args : List String
  g : Globals
  h : Handler
  /-- the invocation of `run` that `main` is inside of, if any -/
  run : Option Run
  lastRunTook : Int
  /-- exit status once the program has ended -/
  exit : Option Nat
  /-- log: invocations of `run` that created a child command -/
  spawns : Nat
  /-- log: for each completed loop body, whether it slept -/
  sleeps : List Bool
  /-- goroutines of returned invocations that still have to call `cmd.Start()` -/
  orphans : Nat
  deriving DecidableEq, Repr

/-- Events of the whole program. -/
inductive Event
  | handler (e : HandlerEvent)
  | run (e : RunEvent)
  /-- `cmd.Start()` of the current invocation fails: `os.Exit(1)` -/
  | startFailed
  /-- `cmd.Start()` of a returned invocation succeeds -/
  | orphanStarted
  /-- `cmd.Start()` of a returned invocation fails: `os.Exit(1)` -/
  | orphanStartFailed
  | timerFire
  /-- `main` reaches `run(ctx)` -/
  | callRun
  /-- `run` has returned; `main` measures `took` and finishes the loop body -/
  | runReturned (took : Int)
  deriving DecidableEq, Repr

/-- The program state when `main` first reaches its loop. -/
def Sys.init (args : List String) : Sys :=
  { args := args
    g := { desire := "restart", restart := 0, shutdown := 0, kill := 0, ctxDone := false, timers := 0 }
    h := Handler.init
    run := none
    lastRunTook := 0
    exit := none
    spawns := 0
    sleeps := []
    orphans := 0 }

/-- What `main` does once `run` has returned with state `r`. -/
def mainAfterRun (s : Sys) (r : Run) (took : Int) : Sys :=
  match mainSwitch s.g.desire with
  | .loop =>
    { s with run := none
             sleeps := s.sleeps ++ [(mainTail s.lastRunTook took).1]
             lastRunTook := (mainTail s.lastRunTook took).2
             orphans := if r.child = .unstarted then s.orphans + 1 else s.orphans }
  | .ret => { s with g := { s.g with ctxDone := true }, exit := some 0 }
  | .fatal => { s with exit := some 1 }

/-- One step of the program.  Nothing runs once the program has ended. -/
def step (s : Sys) (e : Event) : Option Sys :=
  if s.exit.isSome then none
  else
    match e with
    | .handler he =>
      match signalHandlerStep s.g s.h he with
      | some (g', h') => some { s with g := g', h := h' }
      | none => none
    | .run re =>
      match s.run with
      | some r =>
        match runStep s.g r re with
        | some (g', r') => some { s with g := g', run := some r' }
        | none => none
      | none => none
    | .startFailed =>
      match s.run with
      | some r => if r.child = .unstarted then some { s with exit := some 1 } else none
      | none => none
    | .orphanStarted =>
      if 0 < s.orphans then some { s with orphans := s.orphans - 1 } else none
    | .orphanStartFailed =>
      if 0 < s.orphans then some { s with exit := some 1 } else none
    | .timerFire =>
      match timerFire s.g with
      | some g' => some { s with g := g' }
      | none => none
    | .callRun =>
      match s.run with
      | some _ => none
      | none =>
        match runStart s.args with
        | some r => some { s with run := some r, spawns := s.spawns + 1 }
        | none => some { s with exit := some 2 }
    | .runReturned took =>
      match s.run with
      | some r => if r.result.isSome then some (mainAfterRun s r took) else none
      | none => none

/-- Run the program over a sequence of events. -/
def exec (s : Sys) : List Event → Option Sys
  | [] => some s
  | e :: es =>
    match step s e with
    | some s' => exec s' es
    | none => none

/-! ## Reference behaviour used in the statements -/

/-- The signals a step of `run` is to send, by the branch taken and the state of
the child: SIGTERM for a consumed shutdown request and SIGKILL for a consumed
kill request, to the running child process; nothing otherwise. -/
def expectedKills : RunEvent → Child → List Kill
  | .shutdown, .running pid => [{ target := .process pid, sig := .SIGTERM }]
  | .kill, .running pid => [{ target := .process pid, sig := .SIGKILL }]
  | _, _ => []

/-! ## Sample states -/

/-- An invocation of `run` waiting in its `select` with the child running as
process 7. -/
def Run.waiting : Run :=
  { child := .running 7, done := 0, running := true, sendingShutdown := false,
    result := none, sent := [] }

/-- The state after `main` has called `run` and `cmd.Start()` has succeeded with
process 7: `exec (Sys.init ["job"]) [.callRun, .run (.started 7)]`. -/
def Sys.supervising : Sys :=
  { Sys.init ["job"] with run := some Run.waiting, spawns := 1 }

/-- The state `Sys.supervising` after one SIGTERM has been handled: intent
shutdown, one request buffered in `shutdown`. -/
def Sys.termPending : Sys :=
  { Sys.supervising with
    g := { Sys.supervising.g with desire := "shutdown", shutdown := 1 }
    h := { Handler.init with posts := [.shutdown] } }

/-- The state `Sys.termPending` after `run` has delivered SIGTERM, the child has
exited and `run` has returned. -/
def Sys.stopped : Sys :=
  { Sys.termPending with
    g := { Sys.termPending.g with shutdown := 0 }
    run := some { child := .finished 7, done := 0, running := false, sendingShutdown := false,
                  result := some .cmd, sent := [{ target := .process 7, sig := .SIGTERM }] } }

/-- The state `Sys.supervising` after the child has exited by itself and `run`
has returned, the intent still being restart. -/
def Sys.childGone : Sys :=
  { Sys.supervising with
    run := some { child := .finished 7, done := 0, running := false, sendingShutdown := false,
                  result := some .cmd, sent := [] } }


/-! ## Machine integers -/

theorem wrapInt_add (a b : Int) : wrapInt (wrapInt a + b) = wrapInt (a + b) := by
  unfold wrapInt; omega

theorem wrapInt_idem (a : Int) : wrapInt (wrapInt a) = wrapInt a := by
  unfold wrapInt; omega

/-! ## `signalHandler` -/

theorem step_sig_of_idle (g : Globals) (h : Handler) (hi : h.idle) (s : Signal) :
    signalHandlerStep g h (.sig s) = some (handlerSignal g h s) := by
  obtain ⟨h1, h2⟩ := hi
  simp [signalHandlerStep, h1, h2]

theorem step_timeout_of_idle (g : Globals) (h : Handler) (hi : h.idle) :
    signalHandlerStep g h .timeout = some (handlerTimeout g h) := by
  obtain ⟨h1, h2⟩ := hi
  simp [signalHandlerStep, h1, h2]

/-- Signals other than SIGTERM only move the interrupt counter: after a run of
them the counter has advanced, modulo the width of `int`, by the number of
SIGINTs, and nothing else has changed. -/
theorem signalHandler_count (sigs : List Signal) (hterm : Signal.SIGTERM ∉ sigs)
    (g : Globals) (h : Handler) (hi : h.idle) (hr : wrapInt h.sigInts = h.sigInts)
    (rest : List HandlerEvent) :
    signalHandler g h (sigs.map .sig ++ rest) =
      signalHandler g { h with sigInts := wrapInt (h.sigInts + sigs.count .SIGINT) } rest := by
  induction sigs generalizing h with
  | nil => simp [hr]
  | cons s sigs ih =>
    have hs : s ≠ Signal.SIGTERM := fun e => hterm (by simp [e])
    have ht : Signal.SIGTERM ∉ sigs := fun e => hterm (by simp [e])
    have hstep : signalHandler g h ((s :: sigs).map .sig ++ rest) =
        signalHandler (handlerSignal g h s).1 (handlerSignal g h s).2 (sigs.map .sig ++ rest) := by
      simp only [List.map_cons, List.cons_append, signalHandler, step_sig_of_idle g h hi]
      rfl
    rw [hstep]
    cases s with
    | SIGTERM => exact absurd rfl hs
    | SIGINT =>
      simp only [handlerSignal]
      rw [ih ht { h with sigInts := wrapInt (h.sigInts + 1) } ⟨hi.1, hi.2⟩ (wrapInt_idem _)]
      simp only [List.count_cons_self, Nat.cast_add, Nat.cast_one]
      rw [wrapInt_add]
      congr 3; ring
    | SIGKILL => simpa [handlerSignal] using ih ht h hi hr
    | SIGTSTP => simpa [handlerSignal] using ih ht h hi hr
    | other n => simpa [handlerSignal] using ih ht h hi hr


theorem wrapInt_zero : wrapInt 0 = 0 := by unfold wrapInt; omega

theorem len_setLen (g : Globals) (l k : Line) (n : Nat) :
    (g.setLen l n).len k = if k = l then n else g.len k := by
  cases l <;> cases k <;> simp [Globals.len, Globals.setLen]

theorem desire_setLen (g : Globals) (l : Line) (n : Nat) : (g.setLen l n).desire = g.desire := by
  cases l <;> rfl

theorem handlerSend_outcome (g : Globals) (h : Handler) (hi : h.idle) (d : String) (l : Line)
    (reset : Bool) (g0 : Globals) (hlen : ∀ l, g0.len l = g.len l) (h0 : Handler)
    (hp : h0.posts = h.posts) :
    HandlerOutcome g0 h0 (some (handlerSend { g with desire := d } h l reset)) d [l] := by
  obtain ⟨h1, h2⟩ := hi
  have hlen' : ∀ k, Globals.len { g with desire := d } k = g0.len k := by
    intro k; rw [hlen k]; cases k <;> rfl
  unfold HandlerOutcome handlerSend Globals.trySend
  by_cases hc : Globals.len { g with desire := d } l < chanCap
  · rw [if_pos hc]
    refine ⟨_, _, rfl, ?_, ?_, ?_, ?_⟩
    · rw [desire_setLen]
    · simp only [hp]
    · intro k hk
      have hk' : ¬ k = l := by simpa using hk
      rw [len_setLen, if_neg hk', hlen']
    · intro k hk
      have hk' : k = l := by simpa using hk
      subst hk'
      rw [len_setLen, if_pos rfl, hlen'] at *
      exact ⟨fun _ => ⟨rfl, h1⟩, fun hn => absurd hc hn⟩
  · rw [if_neg hc]
    refine ⟨_, _, rfl, rfl, ?_, ?_, ?_⟩
    · simp only [hp]
    · intro k _
      exact hlen' k
    · intro k hk
      have hk' : k = l := by simpa using hk
      subst hk'
      rw [hlen'] at *
      exact ⟨fun hn => absurd hn hc, fun _ => ⟨rfl, rfl⟩⟩

theorem handlerTimeout_outcome (g : Globals) (h : Handler) (hi : h.idle) (h0 : Handler)
    (hp : h0.posts = h.posts) :
    (h.sigInts = 0 → HandlerOutcome g h0 (some (handlerTimeout g h)) g.desire []) ∧
    (h.sigInts = 1 → HandlerOutcome g h0 (some (handlerTimeout g h)) "restart" [.restart]) ∧
    (h.sigInts = 2 ∨ h.sigInts = 3 ∨ h.sigInts = 4 →
      HandlerOutcome g h0 (some (handlerTimeout g h)) "shutdown" [.shutdown]) ∧
    (¬ (h.sigInts = 0 ∨ h.sigInts = 1 ∨ h.sigInts = 2 ∨ h.sigInts = 3 ∨ h.sigInts = 4) →
      HandlerOutcome g h0 (some (handlerTimeout g h)) "kill" [.kill]) := by
  refine ⟨fun e => ?_, fun e => ?_, fun e => ?_, fun e => ?_⟩
  · unfold handlerTimeout
    rw [if_pos e]
    exact ⟨_, _, rfl, rfl, by simp [hp], by simp, by simp⟩
  · have e0 : ¬ h.sigInts = 0 := by omega
    unfold handlerTimeout
    rw [if_neg e0, if_pos e]
    exact handlerSend_outcome g h hi _ _ _ g (fun _ => rfl) h0 hp
  · have e0 : ¬ h.sigInts = 0 := by omega
    have e1 : ¬ h.sigInts = 1 := by omega
    unfold handlerTimeout
    rw [if_neg e0, if_neg e1, if_pos e]
    exact handlerSend_outcome g h hi _ _ _ g (fun _ => rfl) h0 hp
  · have e0 : ¬ h.sigInts = 0 := by omega
    have e1 : ¬ h.sigInts = 1 := by omega
    have e2 : ¬ (h.sigInts = 2 ∨ h.sigInts = 3 ∨ h.sigInts = 4) := by omega
    unfold handlerTimeout
    rw [if_neg e0, if_neg e1, if_neg e2]
    exact handlerSend_outcome g h hi _ _ _ g (fun _ => rfl) h0 hp

/-- C1 (as amended): for every number `n` of SIGINTs below `2 ^ 64`, received
in any order among signals that are neither SIGINT nor SIGTERM, from an
interrupt counter of 0 and followed by one quiet-period timeout, the outcome
depends only on `n`: none leaves the intent unchanged and posts to no channel,
one gives restart and a post to `restart` only, two to four give shutdown and a
post to `shutdown` only, five or more give kill and a post to `kill` only. -/
theorem signalHandler_debounce (g : Globals) (h : Handler) (sigs : List Signal) (n : Nat)
    (hi : h.idle) (h0 : h.sigInts = 0) (hterm : Signal.SIGTERM ∉ sigs)
    (hn : sigs.count .SIGINT = n) (hlt : n < 18446744073709551616) :
    (n = 0 → HandlerOutcome g h (signalHandler g h (sigs.map .sig ++ [.timeout])) g.desire []) ∧
    (n = 1 → HandlerOutcome g h (signalHandler g h (sigs.map .sig ++ [.timeout])) "restart" [.restart]) ∧
    (2 ≤ n ∧ n ≤ 4 →
      HandlerOutcome g h (signalHandler g h (sigs.map .sig ++ [.timeout])) "shutdown" [.shutdown]) ∧
    (5 ≤ n → HandlerOutcome g h (signalHandler g h (sigs.map .sig ++ [.timeout])) "kill" [.kill]) := by
  have hr : wrapInt h.sigInts = h.sigInts := by rw [h0]; exact wrapInt_zero
  have hrun : signalHandler g h (sigs.map .sig ++ [.timeout]) =
      some (handlerTimeout g { h with sigInts := wrapInt (h.sigInts + n) }) := by
    rw [signalHandler_count sigs hterm g h hi hr, hn]
    have hi' : Handler.idle { h with sigInts := wrapInt (h.sigInts + (n : Int)) } := ⟨hi.1, hi.2⟩
    simp only [signalHandler, step_timeout_of_idle g _ hi']
  rw [hrun]
  have hi' : Handler.idle { h with sigInts := wrapInt (h.sigInts + (n : Int)) } := ⟨hi.1, hi.2⟩
  obtain ⟨t0, t1, t2, t3⟩ := handlerTimeout_outcome g _ hi' h rfl
  have hv : ∀ v : Int, v = wrapInt (h.sigInts + (n : Int)) →
      (v = 0 ↔ n = 0) ∧ (v = 1 ↔ n = 1) ∧ (v = 2 ↔ n = 2) ∧ (v = 3 ↔ n = 3) ∧ (v = 4 ↔ n = 4) := by
    intro v hv; rw [h0] at hv; unfold wrapInt at hv; omega
  obtain ⟨v0, v1, v2, v3, v4⟩ := hv _ rfl
  refine ⟨fun e => t0 (v0.2 e), fun e => t1 (v1.2 e), fun e => t2 ?_, fun e => t3 ?_⟩
  · have n2 : n = 2 ∨ n = 3 ∨ n = 4 := by omega
    rcases n2 with n2 | n2 | n2
    · exact Or.inl (v2.2 n2)
    · exact Or.inr (Or.inl (v3.2 n2))
    · exact Or.inr (Or.inr (v4.2 n2))
  · intro hc
    rcases hc with hc | hc | hc | hc | hc
    · have := v0.1 hc; omega
    · have := v1.1 hc; omega
    · have := v2.1 hc; omega
    · have := v3.1 hc; omega
    · have := v4.1 hc; omega

/-- C1, witness of `signalHandler_debounce`: two SIGINTs around a SIGTSTP. -/
theorem signalHandler_debounce_witness :
    HandlerOutcome (Sys.init []).g Handler.init
      (signalHandler (Sys.init []).g Handler.init
        ([Signal.SIGINT, Signal.SIGTSTP, Signal.SIGINT].map .sig ++ [.timeout]))
      "shutdown" [.shutdown] :=
  (signalHandler_debounce (Sys.init []).g Handler.init [.SIGINT, .SIGTSTP, .SIGINT] 2
    ⟨rfl, rfl⟩ rfl (by decide) (by decide) (by decide)).2.2.1 ⟨by decide, by decide⟩

/-- C1 as stated fails for `n = 2 ^ 64`: the counter is an `int`, so after
`2 ^ 64` SIGINTs it is 0 again and the timeout neither changes the intent nor
posts, although `n ≥ 5`. -/
theorem signalHandler_debounce_wraps :
    (List.replicate 18446744073709551616 Signal.SIGINT).count .SIGINT = 18446744073709551616 ∧
    Signal.SIGTERM ∉ List.replicate 18446744073709551616 Signal.SIGINT ∧
    signalHandler (Sys.init []).g Handler.init
      ((List.replicate 18446744073709551616 Signal.SIGINT).map .sig ++ [.timeout])
      = some ((Sys.init []).g, Handler.init) ∧
    (Sys.init []).g.desire ≠ "kill" ∧ Handler.init.posts = [] := by
  have hc : (List.replicate 18446744073709551616 Signal.SIGINT).count .SIGINT
      = 18446744073709551616 := List.count_replicate_self _ _
  have hm : Signal.SIGTERM ∉ List.replicate 18446744073709551616 Signal.SIGINT := by
    intro hin
    exact absurd (List.eq_of_mem_replicate hin) (by decide)
  refine ⟨hc, hm, ?_, by decide, rfl⟩
  rw [signalHandler_count _ hm _ _ ⟨rfl, rfl⟩ wrapInt_zero, hc]
  have hw : wrapInt (Handler.init.sigInts + ((18446744073709551616 : Nat) : Int)) = 0 := by
    have : Handler.init.sigInts = 0 := rfl
    rw [this]; unfold wrapInt; omega
  rw [hw]
  rfl

/-- A handler parked in a send takes no event but the completion of that send,
which needs room in the buffer; it then buffers the element and, after the
send of the timeout branch only, resets the counter. -/
theorem handler_parked (g : Globals) (h : Handler) (l : Line) (reset : Bool)
    (hret : h.returned = false) (hs : h.sending = some (l, reset)) :
    (∀ e, e ≠ .unblock → signalHandlerStep g h e = none) ∧
    (chanCap ≤ g.len l → signalHandlerStep g h .unblock = none) ∧
    (g.len l < chanCap → signalHandlerStep g h .unblock =
      some (g.setLen l (g.len l + 1),
            { h with sending := none, sigInts := if reset then 0 else h.sigInts })) := by
  refine ⟨fun e he => ?_, fun hfull => ?_, fun hroom => ?_⟩
  · cases e <;> simp [signalHandlerStep, hret, hs] at he ⊢
  · simp [signalHandlerStep, hret, hs, Globals.trySend, Nat.not_lt.mpr hfull]
  · simp [signalHandlerStep, hret, hs, Globals.trySend, hroom]

theorem timeoutOutcome_of_idle (g : Globals) (h : Handler) (hi : h.idle) :
    TimeoutOutcome g h h.sigInts := by
  unfold TimeoutOutcome
  rw [step_timeout_of_idle g h hi]
  exact handlerTimeout_outcome g h hi h rfl

/-- C2 (as amended): in every state of a handler waiting in its `select`,
whatever the interrupt counter and the intent, SIGTERM sets the intent to
shutdown in that same step and executes exactly one send, on `shutdown`; the
counter is left as it was.  If the buffer had room the handler is back in its
`select`; if it was full the handler is parked in the send, takes no other
event, and completes the send once the buffer has room, again without touching
the counter or the intent.  Either way the next timeout re-evaluates the
pending count: 0 keeps the intent, 2 to 4 set shutdown again, 1 changes the
intent to restart and every other count changes it to kill. -/
theorem sigterm_sets_shutdown (g : Globals) (h : Handler) (hi : h.idle) :
    HandlerOutcome g h (signalHandlerStep g h (.sig .SIGTERM)) "shutdown" [.shutdown] ∧
    ∀ g1 h1, signalHandlerStep g h (.sig .SIGTERM) = some (g1, h1) →
      g1.desire = "shutdown" ∧ h1.sigInts = h.sigInts ∧
      (g.shutdown < chanCap → h1.idle) ∧
      (h1.idle → TimeoutOutcome g1 h1 h.sigInts) ∧
      (chanCap ≤ g.shutdown →
        h1.sending = some (.shutdown, false) ∧ h1.returned = false ∧
        (∀ g2 e, e ≠ .unblock → signalHandlerStep g2 h1 e = none) ∧
        (∀ g2, chanCap ≤ g2.shutdown → signalHandlerStep g2 h1 .unblock = none) ∧
        ∀ g2, g2.shutdown < chanCap →
          ∃ g3 h3, signalHandlerStep g2 h1 .unblock = some (g3, h3) ∧ h3.idle ∧
            h3.sigInts = h.sigInts ∧ h3.posts = h1.posts ∧
            g3.desire = g2.desire ∧ g3.shutdown = g2.shutdown + 1 ∧
            TimeoutOutcome g3 h3 h.sigInts) := by
  have hstep : signalHandlerStep g h (.sig .SIGTERM) =
      some (handlerSend { g with desire := "shutdown" } h .shutdown false) := by
    rw [step_sig_of_idle g h hi]; rfl
  refine ⟨?_, ?_⟩
  · rw [hstep]
    exact handlerSend_outcome g h hi _ _ _ g (fun _ => rfl) h rfl
  · intro g1 h1 h01
    rw [hstep] at h01
    by_cases hc : g.shutdown < chanCap
    · have hsend : handlerSend { g with desire := "shutdown" } h .shutdown false =
          ({ g with desire := "shutdown", shutdown := g.shutdown + 1 },
           { h with posts := h.posts ++ [.shutdown] }) := by
        simp [handlerSend, Globals.trySend, Globals.len, Globals.setLen, hc]
      rw [hsend] at h01
      simp only [Option.some.injEq, Prod.mk.injEq] at h01
      obtain ⟨rfl, rfl⟩ := h01
      have hi1 : Handler.idle { h with posts := h.posts ++ [.shutdown] } := ⟨hi.1, hi.2⟩
      exact ⟨rfl, rfl, fun _ => hi1, fun _ => timeoutOutcome_of_idle _ _ hi1,
        fun hfull => absurd hc (Nat.not_lt.mpr hfull)⟩
    · have hsend : handlerSend { g with desire := "shutdown" } h .shutdown false =
          ({ g with desire := "shutdown" },
           { h with posts := h.posts ++ [.shutdown], sending := some (.shutdown, false) }) := by
        simp [handlerSend, Globals.trySend, Globals.len, hc]
      rw [hsend] at h01
      simp only [Option.some.injEq, Prod.mk.injEq] at h01
      obtain ⟨rfl, rfl⟩ := h01
      refine ⟨rfl, rfl, fun hroom => absurd hroom hc, fun hidle => ?_, fun _ => ?_⟩
      · exact absurd hidle.1 (by simp)
      · refine ⟨rfl, hi.2, fun g2 e he => ?_, fun g2 hfull => ?_, fun g2 hroom => ?_⟩
        · exact (handler_parked g2
            { h with posts := h.posts ++ [.shutdown], sending := some (.shutdown, false) }
            .shutdown false hi.2 rfl).1 e he
        · exact (handler_parked g2
            { h with posts := h.posts ++ [.shutdown], sending := some (.shutdown, false) }
            .shutdown false hi.2 rfl).2.1 hfull
        · have hu := (handler_parked g2
            { h with posts := h.posts ++ [.shutdown], sending := some (.shutdown, false) }
            .shutdown false hi.2 rfl).2.2 hroom
          have hi3 : Handler.idle { h with posts := h.posts ++ [.shutdown], sending := none } :=
            ⟨rfl, hi.2⟩
          refine ⟨_, _, hu, ?_, ?_, ?_, ?_, ?_, ?_⟩
          · exact ⟨rfl, hi.2⟩
          · rfl
          · rfl
          · rfl
          · rfl
          · exact timeoutOutcome_of_idle _ _ hi3

/-- C2 as stated fails: with one interrupt pending, the intent SIGTERM has set
to shutdown is changed to restart by the next timeout. -/
theorem sigterm_overridden_by_pending_interrupt :
    (signalHandler (Sys.init []).g Handler.init [.sig .SIGINT, .sig .SIGTERM]).map
        (fun p => (p.1.desire, p.2.sigInts)) = some ("shutdown", 1) ∧
    (signalHandler (Sys.init []).g Handler.init [.sig .SIGINT, .sig .SIGTERM, .timeout]).map
        (fun p => (p.1.desire, p.2.posts)) = some ("restart", [.shutdown, .restart]) := by
  decide

/-- C2, witness of `sigterm_sets_shutdown`: a handler with one pending
interrupt receives SIGTERM while a shutdown request is already buffered. -/
theorem sigterm_sets_shutdown_witness :
    HandlerOutcome Sys.termPending.g { Handler.init with sigInts := 1 }
      (signalHandlerStep Sys.termPending.g { Handler.init with sigInts := 1 } (.sig .SIGTERM))
      "shutdown" [.shutdown] :=
  (sigterm_sets_shutdown Sys.termPending.g { Handler.init with sigInts := 1 } ⟨rfl, rfl⟩).1

/-- C3: evaluation of the loop body of `main` at two runs of the child, the
first of five seconds and the second of 100 ns, each followed by intent
restart.  The sleep is decided by `lastRunTook`, which still holds the duration
of the run before the one just completed (zero in the first iteration): the
program sleeps after the five-second run and does not sleep after the short
one. -/
theorem main_sleep_uses_previous_run :
    mainTail (Sys.init ["job"]).lastRunTook (5 * second) = (true, 5 * second) ∧
    mainTail (5 * second) 100 = (false, 100) ∧
    (exec (Sys.init ["job"])
      [.callRun, .run (.started 7), .run .childExit, .run .done, .runReturned (5 * second),
       .callRun, .run (.started 8), .run .childExit, .run .done, .runReturned 100]).map
        (fun s => (s.g.desire, s.sleeps)) = some ("restart", [true, false]) := by
  decide

/-! ## The whole program -/

theorem step_of_exit (s : Sys) (e : Event) (hx : s.exit.isSome) : step s e = none := by
  unfold step; rw [if_pos hx]

theorem exec_of_exit (s s' : Sys) (evs : List Event) (hx : s.exit.isSome)
    (h : exec s evs = some s') : evs = [] ∧ s' = s := by
  cases evs with
  | nil => simpa [exec, eq_comm] using h
  | cons e es => simp [exec, step_of_exit s e hx] at h

theorem step_runReturned (s : Sys) (r : Run) (took : Int) (hx : s.exit = none)
    (hr : s.run = some r) (hres : r.result.isSome) :
    step s (.runReturned took) = some (mainAfterRun s r took) := by
  simp [step, hx, hr, hres]

/-- While `main` is inside `run`, a step other than a return of `run` keeps it
there and spawns nothing. -/
theorem step_inside_run (s s' : Sys) (e : Event) (hr : s.run.isSome)
    (hne : ∀ took, e ≠ .runReturned took) (h : step s e = some s') :
    (s'.exit.isSome ∨ s'.run.isSome) ∧ s'.spawns = s.spawns := by
  obtain ⟨r, hr⟩ := Option.isSome_iff_exists.mp hr
  have hx : ¬ s.exit.isSome := fun hx => by rw [step_of_exit s e hx] at h; cases h
  unfold step at h
  rw [if_neg hx] at h
  cases e with
  | runReturned took => exact absurd rfl (hne took)
  | handler he =>
    simp only at h
    split at h
    · cases h; exact ⟨Or.inr (by simp [hr]), rfl⟩
    · cases h
  | run re =>
    simp only [hr] at h
    split at h
    · cases h; exact ⟨Or.inr rfl, rfl⟩
    · cases h
  | startFailed =>
    simp only [hr] at h
    split_ifs at h
    cases h; exact ⟨Or.inl rfl, rfl⟩
  | orphanStarted =>
    simp only at h
    split_ifs at h
    cases h; exact ⟨Or.inr (by simp [hr]), rfl⟩
  | orphanStartFailed =>
    simp only at h
    split_ifs at h
    cases h; exact ⟨Or.inl rfl, rfl⟩
  | timerFire =>
    simp only at h
    split at h
    · cases h; exact ⟨Or.inr (by simp [hr]), rfl⟩
    · cases h
  | callRun => simp [hr] at h

/-- Inside `run`, the spawn count grows over a sequence of events only if the
sequence contains a return of `run` at which the intent read by `main` is
restart. -/
theorem spawn_needs_restart (evs : List Event) (s s' : Sys) (hr : s.run.isSome)
    (h : exec s evs = some s') (hsp : s'.spawns ≠ s.spawns) :
    ∃ pre took post sm, evs = pre ++ .runReturned took :: post ∧ exec s pre = some sm ∧
      sm.g.desire = "restart" := by
  induction evs generalizing s with
  | nil =>
    simp only [exec, Option.some.injEq] at h
    exact absurd (by rw [h]) hsp
  | cons e es ih =>
    simp only [exec] at h
    cases hs : step s e with
    | none => simp [hs] at h
    | some s1 =>
      rw [hs] at h
      by_cases hret : ∃ took, e = .runReturned took
      · obtain ⟨took, rfl⟩ := hret
        by_cases hd : s.g.desire = "restart"
        · exact ⟨[], took, es, s, rfl, rfl, hd⟩
        · exfalso
          obtain ⟨r, hr'⟩ := Option.isSome_iff_exists.mp hr
          have hx : s.exit = none := by
            cases hxx : s.exit with
            | none => rfl
            | some c => rw [step_of_exit s _ (by simp [hxx])] at hs; cases hs
          have hres : r.result.isSome := by
            by_contra hn
            simp [step, hx, hr', hn] at hs
          rw [step_runReturned s r took hx hr' hres] at hs
          cases hs
          have hm : (mainAfterRun s r took).exit.isSome ∧ (mainAfterRun s r took).spawns = s.spawns := by
            unfold mainAfterRun mainSwitch
            rw [if_neg hd]
            split_ifs <;> exact ⟨rfl, rfl⟩
          obtain ⟨-, he⟩ := exec_of_exit _ _ _ hm.1 h
          exact hsp (by rw [he, hm.2])
      · have hne : ∀ took, e ≠ .runReturned took := fun took he => hret ⟨took, he⟩
        obtain ⟨hor, hsp1⟩ := step_inside_run s s1 e hr hne hs
        rcases hor with hx | hr1
        · exfalso
          obtain ⟨-, he⟩ := exec_of_exit _ _ _ hx h
          exact hsp (by rw [he, hsp1])
        · obtain ⟨pre, took, post, sm, h1, h2, h3⟩ := ih s1 hr1 h (by rw [hsp1]; exact hsp)
          refine ⟨e :: pre, took, post, sm, by rw [h1]; rfl, ?_, h3⟩
          simp only [exec, hs]
          exact h2

/-- C4 (as amended): the intent that counts is the one `main` reads when `run`
returns.  If it is then shutdown or kill, `main` returns with status 0 without
calling `run`, and no event spawns a child afterwards; and while `main` is
inside `run`, a later spawn can only follow a return of `run` at which the
intent read is restart, whatever the intent was before. -/
theorem no_respawn_after_terminal_read (s : Sys) (r : Run) (took : Int) (hx : s.exit = none)
    (hr : s.run = some r) (hres : r.result.isSome)
    (hd : s.g.desire = "shutdown" ∨ s.g.desire = "kill") :
    (∃ s', step s (.runReturned took) = some s' ∧ s'.exit = some 0 ∧ s'.spawns = s.spawns ∧
      ∀ evs s'', exec s' evs = some s'' → s''.spawns = s.spawns) ∧
    (∀ (t : Sys) (evs : List Event) (t' : Sys), t.run.isSome → exec t evs = some t' →
      t'.spawns ≠ t.spawns →
      ∃ pre took' post tm, evs = pre ++ .runReturned took' :: post ∧ exec t pre = some tm ∧
        tm.g.desire = "restart") := by
  refine ⟨⟨mainAfterRun s r took, step_runReturned s r took hx hr hres, ?_⟩,
    fun t evs t' h1 h2 h3 => spawn_needs_restart evs t t' h1 h2 h3⟩
  have hsw : mainSwitch s.g.desire = .ret := by
    unfold mainSwitch
    rcases hd with hd | hd <;> rw [hd] <;> decide
  have hm : (mainAfterRun s r took).exit = some 0 ∧ (mainAfterRun s r took).spawns = s.spawns := by
    unfold mainAfterRun; rw [hsw]; exact ⟨rfl, rfl⟩
  refine ⟨hm.1, hm.2, fun evs s'' h => ?_⟩
  obtain ⟨-, he⟩ := exec_of_exit _ _ _ (by rw [hm.1]; rfl) h
  rw [he, hm.2]

/-- C4 as stated fails: SIGTERM sets the intent to shutdown while the child
runs; one SIGINT and a quiet period later the intent is restart, and when the
child has exited `main` calls `run` a second time. -/
theorem respawn_after_shutdown_intent :
    (exec (Sys.init ["job"])
      [.callRun, .run (.started 7), .handler (.sig .SIGTERM)]).map
        (fun s => (s.g.desire, s.spawns)) = some ("shutdown", 1) ∧
    (exec (Sys.init ["job"])
      [.callRun, .run (.started 7), .handler (.sig .SIGTERM), .run .shutdown,
       .handler (.sig .SIGINT), .handler .timeout, .run .childExit, .run .done,
       .runReturned (3 * second), .callRun]).map
        (fun s => (s.g.desire, s.spawns, s.exit)) = some ("restart", 2, none) := by
  decide

/-- Both sends of the handler behave as blocking sends: the one of SIGTERM and
the one of each timeout branch are either buffered or leave the handler parked
in them. -/
theorem handler_sends_outcome (g : Globals) (h : Handler) (hi : h.idle) :
    HandlerOutcome g h (signalHandlerStep g h (.sig .SIGTERM)) "shutdown" [.shutdown] ∧
    TimeoutOutcome g h h.sigInts := by
  refine ⟨?_, timeoutOutcome_of_idle g h hi⟩
  rw [step_sig_of_idle g h hi]
  exact handlerSend_outcome g h hi _ _ _ g (fun _ => rfl) h rfl

/-- The two sends of `run` on `shutdown`, in the restart branch and in the
cancellation branch: buffered when there is room, otherwise `run` is parked in
the send. -/
theorem run_send_parks (g : Globals) (r : Run) (hres : r.result = none)
    (hsend : r.sendingShutdown = false) :
    (0 < g.restart → ∃ g' r', runStep g r .restart = some (g', r') ∧
      g'.restart = g.restart - 1 ∧ r'.result = none ∧
      (g.shutdown < chanCap → g'.shutdown = g.shutdown + 1 ∧ r'.sendingShutdown = false) ∧
      (chanCap ≤ g.shutdown → g'.shutdown = g.shutdown ∧ r'.sendingShutdown = true)) ∧
    (g.ctxDone = true → ∃ g' r', runStep g r .ctxDone = some (g', r') ∧
      g'.timers = g.timers + 1 ∧ r'.result = none ∧
      (g.shutdown < chanCap → g'.shutdown = g.shutdown + 1 ∧ r'.sendingShutdown = false) ∧
      (chanCap ≤ g.shutdown → g'.shutdown = g.shutdown ∧ r'.sendingShutdown = true)) := by
  refine ⟨fun hre => ?_, fun hctx => ?_⟩
  · by_cases hc : g.shutdown < chanCap
    · refine ⟨{ g with restart := g.restart - 1, shutdown := g.shutdown + 1 }, r, ?_, rfl, hres,
        fun _ => ⟨rfl, hsend⟩, fun hfull => absurd hc (Nat.not_lt.mpr hfull)⟩
      simp [runStep, hres, hsend, Globals.tryRecv, Globals.trySend, Globals.len, Globals.setLen,
        runSendShutdown, hre, hc]
    · refine ⟨{ g with restart := g.restart - 1 }, { r with sendingShutdown := true }, ?_, rfl,
        hres, fun hroom => absurd hroom hc, fun _ => ⟨rfl, rfl⟩⟩
      simp [runStep, hres, hsend, Globals.tryRecv, Globals.trySend, Globals.len, Globals.setLen,
        runSendShutdown, hre, hc]
  · by_cases hc : g.shutdown < chanCap
    · refine ⟨{ g with timers := g.timers + 1, shutdown := g.shutdown + 1 }, r, ?_, rfl, hres,
        fun _ => ⟨rfl, hsend⟩, fun hfull => absurd hc (Nat.not_lt.mpr hfull)⟩
      simp [runStep, hres, hsend, Globals.trySend, Globals.len, Globals.setLen,
        runSendShutdown, hctx, hc]
    · refine ⟨{ g with timers := g.timers + 1 }, { r with sendingShutdown := true }, ?_, rfl,
        hres, fun hroom => absurd hroom hc, fun _ => ⟨rfl, rfl⟩⟩
      simp [runStep, hres, hsend, Globals.trySend, Globals.len, Globals.setLen,
        runSendShutdown, hctx, hc]

/-- An invocation of `run` parked in its send on `shutdown` takes no branch of
its `select`; the send completes once the buffer has room. -/
theorem run_parked (g : Globals) (r : Run) (hres : r.result = none)
    (hsend : r.sendingShutdown = true) :
    (∀ e ∈ [RunEvent.ctxDone, .done, .restart, .shutdown, .kill], runStep g r e = none) ∧
    (chanCap ≤ g.shutdown → runStep g r .unblock = none) ∧
    (g.shutdown < chanCap → runStep g r .unblock =
      some ({ g with shutdown := g.shutdown + 1 }, { r with sendingShutdown := false })) := by
  refine ⟨fun e he => ?_, fun hfull => ?_, fun hroom => ?_⟩
  · simp only [List.mem_cons, List.mem_singleton, List.not_mem_nil, or_false] at he
    rcases he with rfl | rfl | rfl | rfl | rfl <;> simp [runStep, hsend]
  · simp [runStep, hres, hsend, Globals.trySend, Globals.len, Nat.not_lt.mpr hfull]
  · simp [runStep, hres, hsend, Globals.trySend, Globals.len, Globals.setLen, hroom]

/-- The send of a timer goroutine on `kill`: it waits while the buffer is full
and is buffered once there is room. -/
theorem timer_send_blocks (g : Globals) (ht : 0 < g.timers) :
    (chanCap ≤ g.kill → timerFire g = none) ∧
    (g.kill < chanCap →
      timerFire g = some { g with kill := g.kill + 1, timers := g.timers - 1 }) := by
  refine ⟨fun hfull => ?_, fun hroom => ?_⟩
  · simp [timerFire, ht, Globals.trySend, Globals.len, Nat.not_lt.mpr hfull]
  · simp [timerFire, ht, Globals.trySend, Globals.len, Globals.setLen, hroom]

/-- C5 (as amended): each control channel is a buffer of capacity 1 with
blocking sends: a send into a buffer with room adds one element, a send into a
full buffer does not complete and nothing is dropped.  This holds for every
poster: the sends of `signalHandler` (SIGTERM and the three timeout branches)
leave the handler parked, taking no event until the buffer has room; the sends
of `run` on `shutdown` (restart and cancellation branch) leave `run` parked,
taking no branch of its `select`; the send of a timer goroutine on `kill`
waits.  In every state in which a shutdown request is pending, the handler of a
further SIGTERM parks in its send; with a running child and `run` in its
`select`, `run` then consumes the first request, the parked send completes,
`run` consumes the second request, and two SIGTERMs have been delivered to the
child. -/
theorem second_post_blocks_and_is_delivered (s : Sys) (r : Run) (pid : Nat) (hx : s.exit = none)
    (hi : s.h.idle) (hfull : s.g.shutdown = 1) (hr : s.run = some r)
    (hc : r.child = .running pid) (hres : r.result = none) (hsend : r.sendingShutdown = false) :
    (∀ (l : Line) (g0 : Globals),
      (g0.len l < chanCap → ∃ g1, g0.trySend l = some g1 ∧ g1.len l = g0.len l + 1) ∧
      (chanCap ≤ g0.len l → g0.trySend l = none)) ∧
    (∀ (g0 : Globals) (h0 : Handler), h0.idle →
      HandlerOutcome g0 h0 (signalHandlerStep g0 h0 (.sig .SIGTERM)) "shutdown" [.shutdown] ∧
      TimeoutOutcome g0 h0 h0.sigInts) ∧
    (∀ (g0 : Globals) (h0 : Handler) (l : Line) (reset : Bool),
      h0.returned = false → h0.sending = some (l, reset) →
      (∀ e, e ≠ .unblock → signalHandlerStep g0 h0 e = none) ∧
      (chanCap ≤ g0.len l → signalHandlerStep g0 h0 .unblock = none) ∧
      (g0.len l < chanCap → signalHandlerStep g0 h0 .unblock =
        some (g0.setLen l (g0.len l + 1),
              { h0 with sending := none, sigInts := if reset then 0 else h0.sigInts }))) ∧
    (∀ (g0 : Globals) (r0 : Run), r0.result = none → r0.sendingShutdown = false →
      (0 < g0.restart → ∃ g' r', runStep g0 r0 .restart = some (g', r') ∧
        g'.restart = g0.restart - 1 ∧ r'.result = none ∧
        (g0.shutdown < chanCap → g'.shutdown = g0.shutdown + 1 ∧ r'.sendingShutdown = false) ∧
        (chanCap ≤ g0.shutdown → g'.shutdown = g0.shutdown ∧ r'.sendingShutdown = true)) ∧
      (g0.ctxDone = true → ∃ g' r', runStep g0 r0 .ctxDone = some (g', r') ∧
        g'.timers = g0.timers + 1 ∧ r'.result = none ∧
        (g0.shutdown < chanCap → g'.shutdown = g0.shutdown + 1 ∧ r'.sendingShutdown = false) ∧
        (chanCap ≤ g0.shutdown → g'.shutdown = g0.shutdown ∧ r'.sendingShutdown = true))) ∧
    (∀ (g0 : Globals) (r0 : Run), r0.result = none → r0.sendingShutdown = true →
      (∀ e ∈ [RunEvent.ctxDone, .done, .restart, .shutdown, .kill], runStep g0 r0 e = none) ∧
      (chanCap ≤ g0.shutdown → runStep g0 r0 .unblock = none) ∧
      (g0.shutdown < chanCap → runStep g0 r0 .unblock =
        some ({ g0 with shutdown := g0.shutdown + 1 }, { r0 with sendingShutdown := false }))) ∧
    (∀ (g0 : Globals), 0 < g0.timers →
      (chanCap ≤ g0.kill → timerFire g0 = none) ∧
      (g0.kill < chanCap →
        timerFire g0 = some { g0 with kill := g0.kill + 1, timers := g0.timers - 1 })) ∧
    ∃ s1, step s (.handler (.sig .SIGTERM)) = some s1 ∧
      s1.g.shutdown = 1 ∧ s1.h.sending = some (.shutdown, false) ∧
      s1.h.posts = s.h.posts ++ [.shutdown] ∧
      (∀ e, step s1 (.handler e) = none) ∧
      ∃ s4 r4, exec s1 [.run .shutdown, .handler .unblock, .run .shutdown] = some s4 ∧
        s4.run = some r4 ∧ s4.h.sending = none ∧ s4.g.shutdown = 0 ∧
        r4.sent = r.sent ++ [{ target := .process pid, sig := .SIGTERM },
                             { target := .process pid, sig := .SIGTERM }] := by
  obtain ⟨hi1, hi2⟩ := hi
  have h1 : step s (.handler (.sig .SIGTERM)) =
      some { s with g := { s.g with desire := "shutdown" },
                    h := { s.h with posts := s.h.posts ++ [.shutdown],
                                    sending := some (.shutdown, false) } } := by
    simp [step, hx, signalHandlerStep, hi1, hi2, handlerSignal, handlerSend, Globals.trySend,
      Globals.len, hfull, chanCap]
  refine ⟨fun l g0 => ⟨fun hlt => ⟨_, if_pos hlt, by rw [len_setLen, if_pos rfl]⟩,
    fun hge => if_neg (Nat.not_lt.mpr hge)⟩,
    fun g0 h0 hi0 => handler_sends_outcome g0 h0 hi0,
    fun g0 h0 l reset hret hs => handler_parked g0 h0 l reset hret hs,
    fun g0 r0 h0 h1 => run_send_parks g0 r0 h0 h1,
    fun g0 r0 h0 h1 => run_parked g0 r0 h0 h1,
    fun g0 ht => timer_send_blocks g0 ht,
    _, h1, hfull, rfl, rfl, ?_, ?_⟩
  · intro e
    cases e <;>
      simp [step, hx, signalHandlerStep, hi2, Globals.trySend, Globals.len, hfull, chanCap]
  · simp [exec, step, hx, hr, runStep, hres, hsend, Globals.tryRecv, Globals.trySend, Globals.len,
      Globals.setLen, hfull, chanCap, runSignal, hc, signalHandlerStep, hi2]

/-- C5 as stated fails: two SIGTERMs are received back-to-back before `run`
consumes anything.  The second post is not dropped: the handler is parked in
it, and the child ends up with two SIGTERMs. -/
theorem double_post_double_delivery :
    (exec (Sys.init ["job"])
      [.callRun, .run (.started 7), .handler (.sig .SIGTERM), .handler (.sig .SIGTERM)]).map
        (fun s => (s.g.shutdown, s.h.sending, s.h.posts))
      = some (1, some (.shutdown, false), [.shutdown, .shutdown]) ∧
    (exec (Sys.init ["job"])
      [.callRun, .run (.started 7), .handler (.sig .SIGTERM), .handler (.sig .SIGTERM),
       .run .shutdown, .handler .unblock, .run .shutdown]).map
        (fun s => s.run.map (fun r => r.sent))
      = some (some [{ target := .process 7, sig := .SIGTERM },
                    { target := .process 7, sig := .SIGTERM }]) := by
  decide

/-- C6: each time `run` has returned, `main` decides on the value of `desire`
alone, whatever the state `r` in which `run` left the child: on restart it
stays alive with no invocation in progress and its next step calls `run`, which
spawns exactly one child; on shutdown or kill it ends the program with status 0
and spawns nothing; on every other value it ends the program with the fatal
status 1 and spawns nothing. -/
theorem main_branches_on_desire (s : Sys) (r : Run) (took : Int) (hx : s.exit = none)
    (hr : s.run = some r) (hres : r.result.isSome) (hargs : s.args ≠ []) :
    ∃ s', step s (.runReturned took) = some s' ∧ s'.spawns = s.spawns ∧
      (s.g.desire = "restart" →
        s'.exit = none ∧ s'.run = none ∧
        ∃ s'' r'', step s' .callRun = some s'' ∧ s''.spawns = s.spawns + 1 ∧
          s''.run = some r'' ∧ r''.result = none ∧ s''.exit = none) ∧
      (s.g.desire = "shutdown" ∨ s.g.desire = "kill" → s'.exit = some 0) ∧
      (¬ (s.g.desire = "restart" ∨ s.g.desire = "shutdown" ∨ s.g.desire = "kill") →
        s'.exit = some 1) := by
  refine ⟨mainAfterRun s r took, step_runReturned s r took hx hr hres, ?_, ?_, ?_, ?_⟩
  · unfold mainAfterRun; split <;> rfl
  · intro hd
    have hsw : mainSwitch s.g.desire = .loop := by unfold mainSwitch; rw [if_pos hd]
    obtain ⟨a, as, ha⟩ := List.exists_cons_of_ne_nil hargs
    unfold mainAfterRun
    rw [hsw]
    refine ⟨hx, rfl, ?_⟩
    simp [step, hx, runStart, ha]
  · intro hd
    have hsw : mainSwitch s.g.desire = .ret := by
      unfold mainSwitch
      rcases hd with hd | hd <;> rw [hd] <;> decide
    unfold mainAfterRun; rw [hsw]
  · intro hd
    have hsw : mainSwitch s.g.desire = .fatal := by
      unfold mainSwitch
      rw [if_neg (fun h => hd (Or.inl h)), if_neg (fun h => hd (Or.inr h))]
    unfold mainAfterRun; rw [hsw]

theorem trySend_desire (g g' : Globals) (l : Line) (h : g.trySend l = some g') :
    g'.desire = g.desire := by
  unfold Globals.trySend at h
  by_cases hc : g.len l < chanCap
  · rw [if_pos hc] at h; cases h; exact desire_setLen _ _ _
  · rw [if_neg hc] at h; cases h

theorem tryRecv_desire (g g' : Globals) (l : Line) (h : g.tryRecv l = some g') :
    g'.desire = g.desire := by
  unfold Globals.tryRecv at h
  by_cases hc : 0 < g.len l
  · rw [if_pos hc] at h; cases h; exact desire_setLen _ _ _
  · rw [if_neg hc] at h; cases h

theorem handlerSend_desire (g : Globals) (h : Handler) (l : Line) (reset : Bool) :
    (handlerSend g h l reset).1.desire = g.desire := by
  unfold handlerSend
  cases ht : g.trySend l with
  | none => rfl
  | some g1 => exact trySend_desire g g1 l ht

theorem runSendShutdown_desire (g : Globals) (r : Run) :
    (runSendShutdown g r).1.desire = g.desire := by
  unfold runSendShutdown
  cases ht : g.trySend .shutdown with
  | none => rfl
  | some g1 => exact trySend_desire g g1 _ ht

/-- A step of `signalHandler` leaves the intent alone or assigns one of its
three values. -/
theorem signalHandlerStep_desire (g g' : Globals) (h h' : Handler) (e : HandlerEvent)
    (hs : signalHandlerStep g h e = some (g', h')) :
    g'.desire = g.desire ∨ g'.desire = "restart" ∨ g'.desire = "shutdown" ∨ g'.desire = "kill" := by
  unfold signalHandlerStep at hs
  by_cases hret : h.returned = true
  · rw [if_pos hret] at hs; cases hs
  rw [if_neg hret] at hs
  cases hsd : h.sending with
  | some p =>
    obtain ⟨l, reset⟩ := p
    cases e with
    | unblock =>
      simp only [hsd] at hs
      cases ht : g.trySend l with
      | none => simp [ht] at hs
      | some g1 =>
        simp only [ht, Option.some.injEq, Prod.mk.injEq] at hs
        obtain ⟨rfl, -⟩ := hs
        exact Or.inl (trySend_desire g g1 l ht)
    | ctxDone => simp [hsd] at hs
    | sig sg => simp [hsd] at hs
    | timeout => simp [hsd] at hs
  | none =>
    cases e with
    | unblock => simp [hsd] at hs
    | ctxDone =>
      simp only [hsd] at hs
      by_cases hc : g.ctxDone = true
      · rw [if_pos hc] at hs
        simp only [Option.some.injEq, Prod.mk.injEq] at hs
        exact Or.inl (by rw [← hs.1])
      · rw [if_neg hc] at hs; cases hs
    | sig sg =>
      simp only [hsd, Option.some.injEq] at hs
      have hg : g' = (handlerSignal g h sg).1 := by rw [hs]
      rw [hg]
      cases sg <;> simp only [handlerSignal, handlerSend_desire] <;> simp
    | timeout =>
      simp only [hsd, Option.some.injEq] at hs
      have hg : g' = (handlerTimeout g h).1 := by rw [hs]
      rw [hg]
      unfold handlerTimeout
      by_cases h0 : h.sigInts = 0
      · rw [if_pos h0]; exact Or.inl rfl
      rw [if_neg h0]
      by_cases h1 : h.sigInts = 1
      · rw [if_pos h1, handlerSend_desire]; exact Or.inr (Or.inl rfl)
      rw [if_neg h1]
      by_cases h2 : h.sigInts = 2 ∨ h.sigInts = 3 ∨ h.sigInts = 4
      · rw [if_pos h2, handlerSend_desire]; exact Or.inr (Or.inr (Or.inl rfl))
      · rw [if_neg h2, handlerSend_desire]; exact Or.inr (Or.inr (Or.inr rfl))

/-- No step of `run` assigns `desire`. -/
theorem runStep_desire (g g' : Globals) (r r' : Run) (e : RunEvent)
    (hs : runStep g r e = some (g', r')) : g'.desire = g.desire := by
  unfold runStep at hs
  cases e with
  | started pid =>
    simp only at hs
    cases hc : r.child <;> simp only [hc] at hs <;> cases hs
    rfl
  | childExit =>
    simp only at hs
    cases hc : r.child <;> simp only [hc] at hs <;> cases hs
    rfl
  | ctxDone =>
    simp only at hs
    by_cases hc : r.result.isNone ∧ ¬ r.sendingShutdown ∧ g.ctxDone
    · rw [if_pos hc] at hs
      simp only [Option.some.injEq] at hs
      have hg : g' = (runSendShutdown { g with timers := g.timers + 1 } r).1 := by rw [hs]
      rw [hg, runSendShutdown_desire]
    · rw [if_neg hc] at hs; cases hs
  | done =>
    simp only at hs
    by_cases hc : r.result.isNone ∧ ¬ r.sendingShutdown ∧ 0 < r.done
    · rw [if_pos hc] at hs
      simp only [Option.some.injEq, Prod.mk.injEq] at hs
      rw [← hs.1]
    · rw [if_neg hc] at hs; cases hs
  | restart =>
    simp only at hs
    by_cases hc : r.result.isNone ∧ ¬ r.sendingShutdown
    · rw [if_pos hc] at hs
      cases ht : g.tryRecv .restart with
      | none => simp [ht] at hs
      | some g1 =>
        simp only [ht, Option.some.injEq] at hs
        have hg : g' = (runSendShutdown g1 r).1 := by rw [hs]
        rw [hg, runSendShutdown_desire, tryRecv_desire g g1 _ ht]
    · rw [if_neg hc] at hs; cases hs
  | shutdown =>
    simp only at hs
    by_cases hc : r.result.isNone ∧ ¬ r.sendingShutdown
    · rw [if_pos hc] at hs
      cases ht : g.tryRecv .shutdown with
      | none => simp [ht] at hs
      | some g1 =>
        simp only [ht, Option.some.injEq, Prod.mk.injEq] at hs
        rw [← hs.1, tryRecv_desire g g1 _ ht]
    · rw [if_neg hc] at hs; cases hs
  | kill =>
    simp only at hs
    by_cases hc : r.result.isNone ∧ ¬ r.sendingShutdown
    · rw [if_pos hc] at hs
      cases ht : g.tryRecv .kill with
      | none => simp [ht] at hs
      | some g1 =>
        simp only [ht, Option.some.injEq, Prod.mk.injEq] at hs
        rw [← hs.1, tryRecv_desire g g1 _ ht]
    · rw [if_neg hc] at hs; cases hs
  | unblock =>
    simp only at hs
    by_cases hc : r.result.isNone ∧ r.sendingShutdown
    · rw [if_pos hc] at hs
      cases ht : g.trySend .shutdown with
      | none => simp [ht] at hs
      | some g1 =>
        simp only [ht, Option.some.injEq, Prod.mk.injEq] at hs
        rw [← hs.1, trySend_desire g g1 _ ht]
    · rw [if_neg hc] at hs; cases hs

theorem timerFire_desire (g g' : Globals) (h : timerFire g = some g') : g'.desire = g.desire := by
  unfold timerFire at h
  by_cases hc : 0 < g.timers
  · rw [if_pos hc] at h
    cases ht : g.trySend .kill with
    | none => simp [ht] at h
    | some g1 =>
      simp only [ht, Option.some.injEq] at h
      rw [← h]
      exact trySend_desire g g1 _ ht
  · rw [if_neg hc] at h; cases h

theorem step_desire (s s' : Sys) (e : Event) (hs : step s e = some s')
    (hv : s.g.desire = "restart" ∨ s.g.desire = "shutdown" ∨ s.g.desire = "kill") :
    s'.g.desire = "restart" ∨ s'.g.desire = "shutdown" ∨ s'.g.desire = "kill" := by
  have hx : ¬ s.exit.isSome := fun hx => by rw [step_of_exit s e hx] at hs; cases hs
  unfold step at hs
  rw [if_neg hx] at hs
  cases e with
  | handler he =>
    simp only at hs
    cases hh : signalHandlerStep s.g s.h he with
    | none => simp [hh] at hs
    | some p =>
      obtain ⟨g1, h1⟩ := p
      simp only [hh, Option.some.injEq] at hs
      rw [← hs]
      rcases signalHandlerStep_desire _ _ _ _ _ hh with h | h
      · simp only [h]; exact hv
      · exact h
  | run re =>
    simp only at hs
    cases hr : s.run with
    | none => simp [hr] at hs
    | some r =>
      simp only [hr] at hs
      cases hh : runStep s.g r re with
      | none => simp [hh] at hs
      | some p =>
        obtain ⟨g1, r1⟩ := p
        simp only [hh, Option.some.injEq] at hs
        rw [← hs]
        simp only [runStep_desire _ _ _ _ _ hh]; exact hv
  | startFailed =>
    simp only at hs
    cases hr : s.run with
    | none => simp [hr] at hs
    | some r =>
      simp only [hr] at hs
      by_cases hc : r.child = .unstarted
      · rw [if_pos hc] at hs; cases hs; exact hv
      · rw [if_neg hc] at hs; cases hs
  | orphanStarted =>
    simp only at hs
    by_cases hc : 0 < s.orphans
    · rw [if_pos hc] at hs; cases hs; exact hv
    · rw [if_neg hc] at hs; cases hs
  | orphanStartFailed =>
    simp only at hs
    by_cases hc : 0 < s.orphans
    · rw [if_pos hc] at hs; cases hs; exact hv
    · rw [if_neg hc] at hs; cases hs
  | timerFire =>
    simp only at hs
    cases hh : timerFire s.g with
    | none => simp [hh] at hs
    | some g1 =>
      simp only [hh, Option.some.injEq] at hs
      rw [← hs]
      simp only [timerFire_desire _ _ hh]; exact hv
  | callRun =>
    simp only at hs
    cases hr : s.run with
    | some r => simp [hr] at hs
    | none =>
      simp only [hr] at hs
      cases hh : runStart s.args with
      | none => simp only [hh, Option.some.injEq] at hs; rw [← hs]; exact hv
      | some r => simp only [hh, Option.some.injEq] at hs; rw [← hs]; exact hv
  | runReturned took =>
    simp only at hs
    cases hr : s.run with
    | none => simp [hr] at hs
    | some r =>
      simp only [hr] at hs
      by_cases hc : r.result.isSome
      · rw [if_pos hc] at hs
        simp only [Option.some.injEq] at hs
        rw [← hs]
        unfold mainAfterRun
        split <;> exact hv
      · rw [if_neg hc] at hs; cases hs

/-- C10: in every state the program reaches from the initialisation of `main`
the intent is one of restart, shutdown, kill; so the switch of `main` never
takes its fatal default branch there, and no step of `run` changes the
intent. -/
theorem desire_invariant (args : List String) (evs : List Event) (s : Sys)
    (h : exec (Sys.init args) evs = some s) :
    (s.g.desire = "restart" ∨ s.g.desire = "shutdown" ∨ s.g.desire = "kill") ∧
    mainSwitch s.g.desire ≠ .fatal ∧
    ∀ r e g' r', runStep s.g r e = some (g', r') → g'.desire = s.g.desire := by
  have hinv : ∀ (evs : List Event) (t t' : Sys), exec t evs = some t' →
      (t.g.desire = "restart" ∨ t.g.desire = "shutdown" ∨ t.g.desire = "kill") →
      (t'.g.desire = "restart" ∨ t'.g.desire = "shutdown" ∨ t'.g.desire = "kill") := by
    intro evs
    induction evs with
    | nil =>
      intro t t' ht hv
      simp only [exec, Option.some.injEq] at ht
      rw [← ht]; exact hv
    | cons e es ih =>
      intro t t' ht hv
      simp only [exec] at ht
      cases hs : step t e with
      | none => simp [hs] at ht
      | some t1 =>
        rw [hs] at ht
        exact ih t1 t' ht (step_desire t t1 e hs hv)
  have hv := hinv evs _ s h (Or.inl rfl)
  refine ⟨hv, ?_, fun r e g' r' hs => runStep_desire _ _ _ _ _ hs⟩
  unfold mainSwitch
  rcases hv with hv | hv | hv <;> rw [hv] <;> decide

/-- C7 (as amended): consuming a shutdown request makes `run` send SIGTERM, and
consuming a kill request SIGKILL, to the child process itself, addressed by its
pid, when the child is running; no other step of `run` sends anything, no other
signal and no other target is used.  The signal reaches a process exactly when
its pid is the child's: a member of the child's process group with another pid
is not reached. -/
theorem run_signals_child_process (g g' : Globals) (r r' : Run) (e : RunEvent)
    (hs : runStep g r e = some (g', r')) :
    r'.sent = r.sent ++ expectedKills e r.child ∧
    ∀ (k : Kill) (p : Proc), k ∈ expectedKills e r.child →
      (k.target.reaches p = true ↔ r.child = .running p.pid) := by
  have hsent : r'.sent = r.sent ++ expectedKills e r.child := by
    unfold runStep at hs
    cases e with
    | started pid =>
      simp only at hs
      cases hc : r.child <;> simp only [hc] at hs <;> cases hs
      simp [expectedKills]
    | childExit =>
      simp only at hs
      cases hc : r.child <;> simp only [hc] at hs <;> cases hs
      simp [expectedKills]
    | ctxDone =>
      simp only at hs
      by_cases hc : r.result.isNone ∧ ¬ r.sendingShutdown ∧ g.ctxDone
      · rw [if_pos hc] at hs
        simp only [Option.some.injEq] at hs
        have hg : r' = (runSendShutdown { g with timers := g.timers + 1 } r).2 := by rw [hs]
        rw [hg]
        unfold runSendShutdown
        split <;> simp [expectedKills]
      · rw [if_neg hc] at hs; cases hs
    | done =>
      simp only at hs
      by_cases hc : r.result.isNone ∧ ¬ r.sendingShutdown ∧ 0 < r.done
      · rw [if_pos hc] at hs
        simp only [Option.some.injEq, Prod.mk.injEq] at hs
        rw [← hs.2]; simp [expectedKills]
      · rw [if_neg hc] at hs; cases hs
    | restart =>
      simp only at hs
      by_cases hc : r.result.isNone ∧ ¬ r.sendingShutdown
      · rw [if_pos hc] at hs
        cases ht : g.tryRecv .restart with
        | none => simp [ht] at hs
        | some g1 =>
          simp only [ht, Option.some.injEq] at hs
          have hg : r' = (runSendShutdown g1 r).2 := by rw [hs]
          rw [hg]
          unfold runSendShutdown
          split <;> simp [expectedKills]
      · rw [if_neg hc] at hs; cases hs
    | shutdown =>
      simp only at hs
      by_cases hc : r.result.isNone ∧ ¬ r.sendingShutdown
      · rw [if_pos hc] at hs
        cases ht : g.tryRecv .shutdown with
        | none => simp [ht] at hs
        | some g1 =>
          simp only [ht, Option.some.injEq, Prod.mk.injEq] at hs
          rw [← hs.2]
          unfold runSignal
          cases hch : r.child <;> simp [expectedKills]
      · rw [if_neg hc] at hs; cases hs
    | kill =>
      simp only at hs
      by_cases hc : r.result.isNone ∧ ¬ r.sendingShutdown
      · rw [if_pos hc] at hs
        cases ht : g.tryRecv .kill with
        | none => simp [ht] at hs
        | some g1 =>
          simp only [ht, Option.some.injEq, Prod.mk.injEq] at hs
          rw [← hs.2]
          unfold runSignal
          cases hch : r.child <;> simp [expectedKills]
      · rw [if_neg hc] at hs; cases hs
    | unblock =>
      simp only at hs
      by_cases hc : r.result.isNone ∧ r.sendingShutdown
      · rw [if_pos hc] at hs
        cases ht : g.trySend .shutdown with
        | none => simp [ht] at hs
        | some g1 =>
          simp only [ht, Option.some.injEq, Prod.mk.injEq] at hs
          rw [← hs.2]; simp [expectedKills]
      · rw [if_neg hc] at hs; cases hs
  refine ⟨hsent, fun k p hk => ?_⟩
  cases e <;> cases hch : r.child <;>
    simp only [hch, expectedKills, List.mem_singleton, List.not_mem_nil] at hk <;>
    subst hk <;> simp only [Target.reaches, beq_iff_eq, Child.running.injEq] <;> exact eq_comm

/-- C7 as stated fails: with the child running as process 100, consuming the
shutdown request sends SIGTERM to process 100 and not to process group 100; a
descendant 101 in that group is a receiver of the group target but not of the
signal `run` sends. -/
theorem sigterm_not_sent_to_group :
    (exec (Sys.init ["job"])
      [.callRun, .run (.started 100), .handler (.sig .SIGTERM), .run .shutdown]).map
        (fun s => s.run.map (fun r => r.sent))
      = some (some [{ target := .process 100, sig := .SIGTERM }]) ∧
    Target.reaches (.process 100) { pid := 100, pgid := 100 } = true ∧
    Target.reaches (.process 100) { pid := 101, pgid := 100 } = false ∧
    Target.reaches (.group 100) { pid := 101, pgid := 100 } = true := by
  decide

theorem wrapInt_one : wrapInt 1 = 1 := by unfold wrapInt; omega

/-- C8: with a running child, an idle handler with counter 0 and empty control
channels, one SIGINT followed by a quiet period sets the intent to restart and
posts to `restart` only; the one ready branch of `run` then turns the request
into one post on `shutdown`, the next one delivers one SIGTERM to the child and
nothing else is ready; when the child has exited `run` returns having sent that
single SIGTERM and no SIGKILL, and `main` calls `run` again. -/
theorem single_interrupt_restarts (s : Sys) (r : Run) (pid : Nat) (took : Int)
    (hx : s.exit = none) (hargs : s.args ≠ []) (hctx : s.g.ctxDone = false)
    (hi : s.h.idle) (h0 : s.h.sigInts = 0)
    (hre : s.g.restart = 0) (hsh : s.g.shutdown = 0) (hk : s.g.kill = 0)
    (hr : s.run = some r) (hc : r.child = .running pid) (hres : r.result = none)
    (hsend : r.sendingShutdown = false) (hdone : r.done = 0) :
    ∃ s2, exec s [.handler (.sig .SIGINT), .handler .timeout] = some s2 ∧
      s2.g.desire = "restart" ∧ s2.h.posts = s.h.posts ++ [.restart] ∧
      s2.g.restart = 1 ∧ s2.g.shutdown = 0 ∧ s2.g.kill = 0 ∧
      (∀ e ∈ [RunEvent.ctxDone, .done, .shutdown, .kill], step s2 (.run e) = none) ∧
    ∃ s3, step s2 (.run .restart) = some s3 ∧
      s3.g.restart = 0 ∧ s3.g.shutdown = 1 ∧ s3.g.kill = 0 ∧
      (∀ e ∈ [RunEvent.ctxDone, .done, .restart, .kill], step s3 (.run e) = none) ∧
    ∃ s4 r4, step s3 (.run .shutdown) = some s4 ∧ s4.run = some r4 ∧
      r4.sent = r.sent ++ [{ target := .process pid, sig := .SIGTERM }] ∧
      s4.g.restart = 0 ∧ s4.g.shutdown = 0 ∧ s4.g.kill = 0 ∧
      (∀ e ∈ [RunEvent.ctxDone, .done, .restart, .shutdown, .kill], step s4 (.run e) = none) ∧
    ∃ s6 r6, exec s4 [.run .childExit, .run .done] = some s6 ∧ s6.run = some r6 ∧
      r6.result = some .cmd ∧
      r6.sent = r.sent ++ [{ target := .process pid, sig := .SIGTERM }] ∧
      s6.g.desire = "restart" ∧
    ∃ s8 r8, exec s6 [.runReturned took, .callRun] = some s8 ∧ s8.exit = none ∧
      s8.spawns = s.spawns + 1 ∧ s8.run = some r8 ∧ r8.child = .unstarted ∧ r8.sent = [] := by
  obtain ⟨hi1, hi2⟩ := hi
  obtain ⟨a, as, ha⟩ := List.exists_cons_of_ne_nil hargs
  simp [exec, step, hx, hr, runStep, hres, hsend, hdone, hctx, Globals.tryRecv, Globals.trySend,
    Globals.len, Globals.setLen, hre, hsh, hk, chanCap, runSignal, runSendShutdown, hc,
    signalHandlerStep, hi1, hi2, handlerSignal, handlerTimeout, handlerSend, h0, wrapInt_one,
    mainAfterRun, mainSwitch, mainTail, runStart, ha]

theorem runSendShutdown_result (g : Globals) (r : Run) :
    (runSendShutdown g r).2.result = r.result := by
  unfold runSendShutdown
  cases g.trySend .shutdown <;> rfl

theorem runSignal_result (r : Run) (sig : Signal) (hres : r.result = none) :
    (r.child = .unstarted → (runSignal r sig).result = some .recovered) ∧
    (r.child ≠ .unstarted → (runSignal r sig).result = none) := by
  unfold runSignal
  cases hc : r.child <;> simp [hres]

/-- C9 (as amended): a step of the wait loop of `run` makes `run` return in
exactly two cases: the child-completion notification is consumed (`return cmd`),
or a shutdown or kill request is consumed while `cmd.Process` is still nil, when
the delivery faults, the deferred function absorbs the panic and `run` returns
without the completion having been consumed.  After every other step, external
cancellation, a restart request and a delivery to a running or an already
finished child (which fails with an error) included, `run` has not returned. -/
theorem run_returns_iff (g g' : Globals) (r r' : Run) (e : RunEvent) (hres : r.result = none)
    (hs : runStep g r e = some (g', r')) :
    (r'.result = some .cmd ↔ e = .done) ∧
    (r'.result = some .recovered ↔ (e = .shutdown ∨ e = .kill) ∧ r.child = .unstarted) ∧
    (r'.result = none ↔ ¬ (e = .done ∨ ((e = .shutdown ∨ e = .kill) ∧ r.child = .unstarted))) := by
  unfold runStep at hs
  cases e with
  | started pid =>
    simp only at hs
    cases hc : r.child <;> simp only [hc] at hs <;> cases hs
    simp [hres]
  | childExit =>
    simp only at hs
    cases hc : r.child <;> simp only [hc] at hs <;> cases hs
    simp [hres]
  | ctxDone =>
    simp only at hs
    by_cases hc : r.result.isNone ∧ ¬ r.sendingShutdown ∧ g.ctxDone
    · rw [if_pos hc] at hs
      simp only [Option.some.injEq] at hs
      have hg : r' = (runSendShutdown { g with timers := g.timers + 1 } r).2 := by rw [hs]
      rw [hg, runSendShutdown_result, hres]
      simp
    · rw [if_neg hc] at hs; cases hs
  | done =>
    simp only at hs
    by_cases hc : r.result.isNone ∧ ¬ r.sendingShutdown ∧ 0 < r.done
    · rw [if_pos hc] at hs
      simp only [Option.some.injEq, Prod.mk.injEq] at hs
      rw [← hs.2]; simp
    · rw [if_neg hc] at hs; cases hs
  | restart =>
    simp only at hs
    by_cases hc : r.result.isNone ∧ ¬ r.sendingShutdown
    · rw [if_pos hc] at hs
      cases ht : g.tryRecv .restart with
      | none => simp [ht] at hs
      | some g1 =>
        simp only [ht, Option.some.injEq] at hs
        have hg : r' = (runSendShutdown g1 r).2 := by rw [hs]
        rw [hg, runSendShutdown_result, hres]
        simp
    · rw [if_neg hc] at hs; cases hs
  | shutdown =>
    simp only at hs
    by_cases hc : r.result.isNone ∧ ¬ r.sendingShutdown
    · rw [if_pos hc] at hs
      cases ht : g.tryRecv .shutdown with
      | none => simp [ht] at hs
      | some g1 =>
        simp only [ht, Option.some.injEq, Prod.mk.injEq] at hs
        rw [← hs.2]
        obtain ⟨s1, s2⟩ := runSignal_result r .SIGTERM hres
        by_cases hch : r.child = .unstarted
        · simp [s1 hch, hch]
        · simp [s2 hch, hch]
    · rw [if_neg hc] at hs; cases hs
  | kill =>
    simp only at hs
    by_cases hc : r.result.isNone ∧ ¬ r.sendingShutdown
    · rw [if_pos hc] at hs
      cases ht : g.tryRecv .kill with
      | none => simp [ht] at hs
      | some g1 =>
        simp only [ht, Option.some.injEq, Prod.mk.injEq] at hs
        rw [← hs.2]
        obtain ⟨s1, s2⟩ := runSignal_result r .SIGKILL hres
        by_cases hch : r.child = .unstarted
        · simp [s1 hch, hch]
        · simp [s2 hch, hch]
    · rw [if_neg hc] at hs; cases hs
  | unblock =>
    simp only at hs
    by_cases hc : r.result.isNone ∧ r.sendingShutdown
    · rw [if_pos hc] at hs
      cases ht : g.trySend .shutdown with
      | none => simp [ht] at hs
      | some g1 =>
        simp only [ht, Option.some.injEq, Prod.mk.injEq] at hs
        rw [← hs.2]; simp [hres]
    · rw [if_neg hc] at hs; cases hs

/-- C9 as stated fails: SIGTERM is handled while `main` sleeps between two
runs; the next invocation of `run` finds the shutdown request before the
goroutine has started the child, the delivery faults on the nil `cmd.Process`,
the panic is absorbed and `run` returns although no child completion was
consumed; `main` then ends the program. -/
theorem run_returns_on_delivery_fault :
    (exec (Sys.init ["job"])
      [.callRun, .run (.started 7), .run .childExit, .run .done, .runReturned 100,
       .handler (.sig .SIGTERM), .callRun, .run .shutdown]).map
        (fun s => s.run.map (fun r => (r.child, r.done, r.running, r.result)))
      = some (some (.unstarted, 0, true, some .recovered)) ∧
    (exec (Sys.init ["job"])
      [.callRun, .run (.started 7), .run .childExit, .run .done, .runReturned 100,
       .handler (.sig .SIGTERM), .callRun, .run .shutdown, .runReturned 5]).map
        (fun s => s.exit) = some (some 0) := by
  decide

/-! ## Instances at the sample states -/

/-- C4, witness of `no_respawn_after_terminal_read`: the sample state in which
`run` has returned under intent shutdown is reached from the start, and `main`
ends the program there. -/
theorem no_respawn_after_terminal_read_witness :
    exec (Sys.init ["job"])
      [.callRun, .run (.started 7), .handler (.sig .SIGTERM), .run .shutdown, .run .childExit,
       .run .done] = some Sys.stopped ∧
    ∃ s', step Sys.stopped (.runReturned 5) = some s' ∧ s'.exit = some 0 ∧
      s'.spawns = Sys.stopped.spawns ∧
      ∀ evs s'', exec s' evs = some s'' → s''.spawns = Sys.stopped.spawns :=
  ⟨by decide, (no_respawn_after_terminal_read Sys.stopped _ 5 rfl rfl rfl (Or.inl rfl)).1⟩

/-- C5, witness of `second_post_blocks_and_is_delivered`: a second SIGTERM at the
sample state with a pending shutdown request parks the handler. -/
theorem second_post_blocks_and_is_delivered_witness :
    exec (Sys.init ["job"]) [.callRun, .run (.started 7), .handler (.sig .SIGTERM)]
      = some Sys.termPending ∧
    ∃ s1, step Sys.termPending (.handler (.sig .SIGTERM)) = some s1 ∧
      s1.g.shutdown = 1 ∧ s1.h.sending = some (.shutdown, false) :=
  ⟨by decide,
    let ⟨s1, h1, h2, h3, _⟩ :=
      (second_post_blocks_and_is_delivered Sys.termPending Run.waiting 7 rfl ⟨rfl, rfl⟩ rfl rfl
        rfl rfl rfl).2.2.2.2.2.2
    ⟨s1, h1, h2, h3⟩⟩

/-- C6, witness of `main_branches_on_desire`: at the sample state in which the
child has exited by itself under intent restart, `main` stays alive and its
next step spawns the second child. -/
theorem main_branches_on_desire_witness :
    exec (Sys.init ["job"]) [.callRun, .run (.started 7), .run .childExit, .run .done]
      = some Sys.childGone ∧
    ∃ s' s'', step Sys.childGone (.runReturned 5) = some s' ∧ s'.exit = none ∧
      step s' .callRun = some s'' ∧ s''.spawns = 2 :=
  ⟨by decide,
    let ⟨s', h1, _, h3, _⟩ :=
      main_branches_on_desire Sys.childGone _ 5 rfl rfl rfl (by decide)
    let ⟨h4, _, s'', _, h5, h6, _⟩ := h3 rfl
    ⟨s', s'', h1, h4, h5, h6⟩⟩

/-- C7, witness of `run_signals_child_process`: the waiting invocation consumes
the pending shutdown request and sends SIGTERM to process 7. -/
theorem run_signals_child_process_witness :
    runStep Sys.termPending.g Run.waiting .shutdown
      = some (Sys.stopped.g,
              { Run.waiting with sent := [{ target := .process 7, sig := .SIGTERM }] }) ∧
    ({ Run.waiting with sent := [{ target := .process 7, sig := .SIGTERM }] } : Run).sent
      = Run.waiting.sent ++ expectedKills .shutdown Run.waiting.child :=
  ⟨by decide,
    (run_signals_child_process Sys.termPending.g Sys.stopped.g Run.waiting
      { Run.waiting with sent := [{ target := .process 7, sig := .SIGTERM }] } .shutdown
      (by decide)).1⟩

/-- C8, witness of `single_interrupt_restarts` at the sample state with a
running child. -/
theorem single_interrupt_restarts_witness :
    exec (Sys.init ["job"]) [.callRun, .run (.started 7)] = some Sys.supervising ∧
    ∃ s2, exec Sys.supervising [.handler (.sig .SIGINT), .handler .timeout] = some s2 ∧
      s2.g.desire = "restart" ∧ s2.h.posts = Sys.supervising.h.posts ++ [.restart] :=
  ⟨by decide,
    let ⟨s2, h1, h2, h3, _⟩ :=
      single_interrupt_restarts Sys.supervising Run.waiting 7 (2 * second) rfl (by decide) rfl
        ⟨rfl, rfl⟩ rfl rfl rfl rfl rfl rfl rfl rfl rfl
    ⟨s2, h1, h2, h3⟩⟩

/-- C9, witness of `run_returns_iff`: a kill request consumed after the child
has finished fails to be delivered and leaves `run` in its loop. -/
theorem run_returns_iff_witness :
    runStep { Sys.stopped.g with kill := 1 }
        { Run.waiting with child := .finished 7, done := 1 } .kill
      = some (Sys.stopped.g, { Run.waiting with child := .finished 7, done := 1 }) ∧
    (({ Run.waiting with child := .finished 7, done := 1 } : Run).result = none ↔
      ¬ (RunEvent.kill = .done ∨
        ((RunEvent.kill = .shutdown ∨ RunEvent.kill = .kill) ∧
          ({ Run.waiting with child := .finished 7, done := 1 } : Run).child = .unstarted))) :=
  ⟨by decide,
    (run_returns_iff { Sys.stopped.g with kill := 1 } Sys.stopped.g
      { Run.waiting with child := .finished 7, done := 1 }
      { Run.waiting with child := .finished 7, done := 1 } .kill rfl (by decide)).2.2⟩

/-- C10, witness of `desire_invariant`: the sample state with a pending
shutdown request is reached from the start and its intent is one of the three
values. -/
theorem desire_invariant_witness :
    exec (Sys.init ["job"]) [.callRun, .run (.started 7), .handler (.sig .SIGTERM)]
      = some Sys.termPending ∧
    (Sys.termPending.g.desire = "restart" ∨ Sys.termPending.g.desire = "shutdown" ∨
      Sys.termPending.g.desire = "kill") :=
  ⟨by decide,
    (desire_invariant ["job"] [.callRun, .run (.started 7), .handler (.sig .SIGTERM)]
      Sys.termPending (by decide)).1⟩

end Gunner
